import Mathlib

/-!
Verification of the ecoscore-backend aggregation / caching / throttling core.

A shallow embedding, in Lean 4, of the core of the `ecoscore-backend` repository:

* `src/api/endpoints.py` — the `/green-score` orchestrator (`compute_green_score`),
  the weighted geometric-mean scorer (`_geometric_mean_over_scores`), the per-client
  rate limiter and the endpoint caching / freshness logic (`green_score`);
* `src/utils/cache.py` — the TTL memoizer (`ttl_cache`);
* `src/utils/kv.py` — the Redis-backed distributed result cache;
* `src/utils/overpass_throttle.py` — the paced, hedged, retrying Overpass client;
* `src/utils/geocode.py` — the TTL-memoized geocoder;
* `src/utils/trees.py` / `src/utils/pavement.py` — score normalizers used by the
  orchestrator's land-cover branch.

Python floats are modelled as rationals (`ℚ`) except where the source applies
transcendental functions (`math.log`, `math.exp`, `**`), which are modelled over `ℝ`.
Python's banker's rounding (`round`) is modelled explicitly by `pyRound`.
External effects (network adapters, the Redis store, `time.time()`) are passed in as
explicit values/outcomes, which is exactly the data the Python code consumes from them.
-/

namespace EcoScore

/-- JSON-like Python values as they flow through `endpoints.py`: `None`, numbers,
strings, lists (tuples) and dicts (dicts are modelled as insertion-ordered
association lists, matching CPython's dict semantics for the literal dicts built
by the source). -/
inductive JVal where
  | null : JVal
  | num : ℚ → JVal
  | str : String → JVal
  | arr : List JVal → JVal
  | dict : List (String × JVal) → JVal

/-- First binding of a key in an association list (Python dict lookup; the source
never inserts a duplicate key, so first-match equals dict semantics). -/
def lookupKV : List (String × JVal) → String → Option JVal
  | [], _ => none
  | (k, v) :: rest, q => if k = q then some v else lookupKV rest q

/-- Python `key in d` on a dict. -/
def hasKey (kvs : List (String × JVal)) (q : String) : Bool :=
  (lookupKV kvs q).isSome

/-- Python `d.get(key, default)` where `d` is known to be a dict. -/
def dictGet (kvs : List (String × JVal)) (k : String) (dflt : JVal) : JVal :=
  (lookupKV kvs k).getD dflt

/-- Python truthiness of the values in the model (`None`, `0`, `""`, empty
containers are falsy). -/
def JVal.truthy : JVal → Bool
  | .null => false
  | .num q => decide (q ≠ 0)
  | .str s => decide (s ≠ "")
  | .arr l => !l.isEmpty
  | .dict l => !l.isEmpty

/-- Python `v.get(key, default)`: succeeds on dicts, raises `AttributeError`
on any other value (as at `endpoints.py:168`, where a non-dict adapter result
reaches `.get`). -/
def pyGet (v : JVal) (k : String) (dflt : JVal) : Except String JVal :=
  match v with
  | .dict kvs => .ok (dictGet kvs k dflt)
  | _ => .error "AttributeError"

/-- Python banker's rounding (`round()` rounds halves to the nearest even
integer), on the real-number idealization of floats. -/
noncomputable def pyRound (x : ℝ) : ℤ :=
  if Int.fract x = 1 / 2 then (if Even ⌊x⌋ then ⌊x⌋ else ⌊x⌋ + 1) else round x

/-! ## `src/utils/cache.py` — the TTL memoizer

`ttl_cache` keeps, per wrapped function, a private dict mapping argument keys to
`(value, stored_at)` pairs.  One call of the wrapper is modelled by `ttl_call`:
it receives the memo state, the argument key, the current clock, and the value
the wrapped function would produce if invoked (its network result), and returns
the call's result, the new memo state, and whether the wrapped function ran. -/

/-- Lookup in the memo dict (`key in cache` / `cache[key]`). -/
def lookupMemo {κ ν : Type} [DecidableEq κ] :
    List (κ × ν × ℚ) → κ → Option (ν × ℚ)
  | [], _ => none
  | (k, e) :: rest, q => if k = q then some e else lookupMemo rest q

/-- Store into the memo dict (`cache[key] = (result, now)`): replaces the
existing binding or appends a fresh one. -/
def setMemo {κ ν : Type} [DecidableEq κ] :
    List (κ × ν × ℚ) → κ → ν × ℚ → List (κ × ν × ℚ)
  | [], q, e => [(q, e)]
  | (k, e₀) :: rest, q, e =>
      if k = q then (k, e) :: rest else (k, e₀) :: setMemo rest q e

/-- One call through the `ttl_cache(seconds)` wrapper (`cache.py:29-43`).
Returns `(result, new state, wrapped function invoked?)`.  Any stored value —
including a `None`/error value — is served as long as `now - stored_at <
seconds`; otherwise the wrapped function runs and its result overwrites the
entry unconditionally. -/
def ttl_call {κ ν : Type} [DecidableEq κ] (seconds : ℚ)
    (st : List (κ × ν × ℚ)) (k : κ) (now : ℚ) (compute : ν) :
    ν × List (κ × ν × ℚ) × Bool :=
  match lookupMemo st k with
  | some (val, ts) =>
      if now - ts < seconds then (val, st, false)
      else (compute, setMemo st k (compute, now), true)
  | none => (compute, setMemo st k (compute, now), true)

/-- From `src/utils/geocode.py`: `get_coordinates_from_zip` is the Nominatim lookup
wrapped in `@ttl_cache(seconds=86400)`.  Its network part returns
`some (lat, lon)` on success and `none` on any failure (`geocode.py:27-42`);
`resolve` is that network outcome. -/
def get_coordinates_from_zip (st : List (String × Option (ℚ × ℚ) × ℚ))
    (zip : String) (now : ℚ) (resolve : Option (ℚ × ℚ)) :
    Option (ℚ × ℚ) × List (String × Option (ℚ × ℚ) × ℚ) × Bool :=
  ttl_call 86400 st zip now resolve

/-! ## `src/api/endpoints.py` — weights and the composite scorer -/

/-- Weights table `METRIC_WEIGHTS` (`endpoints.py:59-70`).  `demographics` is deliberately
absent. -/
def METRIC_WEIGHTS : List (String × ℚ) :=
  [("air_quality", 12/10), ("tree_canopy", 8/10), ("pavement", 8/10),
   ("traffic", 1), ("toxic_sites", 11/10), ("green_space", 9/10),
   ("sea_level_rise", 9/10), ("transit_access", 6/10),
   ("water_availability", 6/10), ("riverine_flood_risk", 9/10)]

/-- Python `METRIC_WEIGHTS.get(k, 0.0)`. -/
def weightOf (k : String) : ℚ :=
  ((METRIC_WEIGHTS.find? (fun p => p.1 = k)).map Prod.snd).getD 0

/-- Function `_extract_score` (`endpoints.py:72-79`): a clamped numeric score in
`[0,100]`, or `none` if the entry is not a dict or its `score` is not a
number. -/
def _extract_score : JVal → Option ℚ
  | .dict kvs =>
      match lookupKV kvs "score" with
      | some (.num s) => some (max 0 (min 100 s))
      | _ => none
  | _ => none

/-- The `triples` accumulation inside `_geometric_mean_over_scores`
(`endpoints.py:87-93`): metrics with an extractable score and a positive
configured weight, the score floored at `1`. -/
def scoreTriples (scores : List (String × JVal)) : List (String × ℚ × ℚ) :=
  scores.filterMap fun kv =>
    match _extract_score kv.2 with
    | some s => if 0 < weightOf kv.1 then some (kv.1, max 1 s, weightOf kv.1) else none
    | none => none

/-- Function `_geometric_mean_over_scores` (`endpoints.py:81-106`): weighted geometric
mean with missing-metric renormalization, clamped to `[0,100]` and rounded. -/
noncomputable def _geometric_mean_over_scores
    (scores : List (String × JVal)) : Option ℤ :=
  let ts := scoreTriples scores
  if ts.isEmpty then none
  else
    let total_w : ℚ := (ts.map (fun t => t.2.2)).sum
    if total_w ≤ 0 then none
    else
      let acc : ℝ :=
        (ts.map (fun t => ((t.2.2 : ℝ) / (total_w : ℝ)) * Real.log ((t.2.1 : ℝ) / 100))).sum
      some (pyRound (max 0 (min 100 (100 * Real.exp acc))))

/-! ## `src/utils/trees.py` / `src/utils/pavement.py` — normalizers -/

/-- Python `float(v)` on the values normalizers receive from the land-cover
adapter (a number, or `None` on a missing key — the latter raises `TypeError`,
caught by the normalizers, which then return `0`). -/
def toPyFloat : JVal → Option ℚ
  | .num q => some q
  | _ => none

/-- Function `normalize_canopy` (`trees.py:30-43`): saturating curve
`100·p^1.2/(p^1.2 + 20^1.2)`, with `0` for invalid or zero input. -/
noncomputable def normalize_canopy (percentage : JVal) : ℤ :=
  match toPyFloat percentage with
  | none => 0
  | some p0 =>
      let p : ℝ := max 0 (min 100 (p0 : ℝ))
      if p = 0 then 0
      else pyRound (100 * p ^ (12/10 : ℝ) / (p ^ (12/10 : ℝ) + (20 : ℝ) ^ (12/10 : ℝ)))

/-- Function `normalize_pavement` (`pavement.py:30-41`): logistic curve with midpoint 30
and steepness 0.12, `0` for invalid input. -/
noncomputable def normalize_pavement (percentage : JVal) : ℤ :=
  match toPyFloat percentage with
  | none => 0
  | some p0 =>
      let p : ℝ := max 0 (min 100 (p0 : ℝ))
      pyRound (100 * (1 / (1 + Real.exp ((12/100) * (p - 30)))))

/-- Python `round(x, 2)` (`endpoints.py:193`), on rationals. -/
noncomputable def pyRound2 (q : ℚ) : ℚ :=
  ((pyRound ((q : ℝ) * 100) : ℤ) : ℚ) / 100

/-! ## `compute_green_score` (`endpoints.py:109-262`) — the orchestrator

The ten source adapters are external network collaborators; one orchestrator
run consumes, for each adapter, either the value the adapter returned or the
exception it raised.  `Outcome` is that datum, and `await` is
`concurrent.futures.Future.result()`, which re-raises a stored exception.
`endpoints.py:146-156` awaits the futures in a fixed order with **no**
`try`/`except` around them, so a raised exception propagates out of
`compute_green_score`. -/

/-- What one adapter call produced: a returned value or a raised exception. -/
inductive Outcome where
  | val : JVal → Outcome
  | exc : String → Outcome

/-- One outcome per registered source adapter, in the submission order of
`endpoints.py:132-143`. -/
structure AdapterOutcomes where
  air : Outcome
  land : Outcome
  traffic : Outcome
  toxic : Outcome
  green : Outcome
  dem : Outcome
  sea : Outcome
  transit : Outcome
  water : Outcome
  flood : Outcome

/-- Python `Future.result()`: returns the value or re-raises the adapter's exception. -/
def await : Outcome → Except String JVal
  | .val v => .ok v
  | .exc m => .error m

/-- Python `err = v.get("error", dflt) if isinstance(v, dict) else dflt` — the common
error-message extraction of the per-metric else-branches. -/
def errMsgOf (v : JVal) (dflt : String) : JVal :=
  match v with
  | .dict kvs => dictGet kvs "error" (.str dflt)
  | _ => .str dflt

/-- The pass-through pattern used for `toxic_sites`, `green_space`,
`demographics`, `sea_level_rise`, `transit_access`, `water_availability` and
`riverine_flood_risk` (`endpoints.py:199-246`): a dict without an `"error"`
key is stored as-is, anything else becomes `{"error": msg}`. -/
def passthroughEntry (v : JVal) (dflt : String) : JVal :=
  match v with
  | .dict kvs =>
      if hasKey kvs "error" then .dict [("error", errMsgOf v dflt)] else v
  | _ => .dict [("error", .str dflt)]

/-- The `scores` dict built at `endpoints.py:158-246` from the ten adapter
results, in source insertion order.  The computation can raise: the
`air_quality` else-branch calls `.get` on a possibly-non-dict value
(`endpoints.py:168`), and the `traffic` branch calls `round(...)` on the
`weighted_length` value (`endpoints.py:193`). -/
noncomputable def buildScores (air land traffic toxic green dem sea transit water flood : JVal) :
    Except String (List (String × JVal)) := do
  let airEntry ←
    match air with
    | .dict kvs =>
        if hasKey kvs "error" then do
          let e ← pyGet air "error" (.str "Unknown error")
          pure (JVal.dict [("error", e), ("source", .str "AirNow")])
        else
          pure (JVal.dict
            [("score", dictGet kvs "score" .null),
             ("max_aqi", dictGet kvs "max_aqi" .null),
             ("primary_pollutant", dictGet kvs "primary_pollutant" .null),
             ("observations", dictGet kvs "observations" .null),
             ("source", .str "AirNow")])
    | _ => do
        let e ← pyGet air "error" (.str "Unknown error")
        pure (JVal.dict [("error", e), ("source", .str "AirNow")])
  let landPair :=
    match land with
    | .dict kvs =>
        if hasKey kvs "error" then
          let e := errMsgOf land "Unable to retrieve land cover data"
          (JVal.dict [("error", e)], JVal.dict [("error", e)])
        else
          (JVal.dict
             [("score", .num ((normalize_canopy (dictGet kvs "canopy" .null) : ℤ) : ℚ)),
              ("percentage", dictGet kvs "canopy" .null),
              ("source", dictGet kvs "source" .null),
              ("acquired", dictGet kvs "acquired" .null)],
           JVal.dict
             [("score", .num ((normalize_pavement (dictGet kvs "pavement" .null) : ℤ) : ℚ)),
              ("percentage", dictGet kvs "pavement" .null),
              ("source", dictGet kvs "source" .null),
              ("acquired", dictGet kvs "acquired" .null)])
    | _ => (JVal.dict [("error", .str "Unable to retrieve land cover data")],
            JVal.dict [("error", .str "Unable to retrieve land cover data")])
  let trafficEntry ←
    match traffic with
    | .dict kvs =>
        if hasKey kvs "error" then
          pure (JVal.dict [("error", errMsgOf traffic "Unable to compute traffic score")])
        else
          match dictGet kvs "weighted_length" (.num 0) with
          | .num wl =>
              pure (JVal.dict
                [("score", dictGet kvs "score" .null),
                 ("weighted_road_length", .num (pyRound2 wl))])
          | _ => Except.error "TypeError"
    | _ => pure (JVal.dict [("error", .str "Unable to compute traffic score")])
  pure
    [("air_quality", airEntry),
     ("tree_canopy", landPair.1),
     ("pavement", landPair.2),
     ("traffic", trafficEntry),
     ("toxic_sites", passthroughEntry toxic "Unable to retrieve toxic sites"),
     ("green_space", passthroughEntry green "Unable to retrieve green space"),
     ("demographics", passthroughEntry dem "Unable to retrieve demographics"),
     ("sea_level_rise", passthroughEntry sea "Unable to compute sea level rise exposure"),
     ("transit_access", passthroughEntry transit "Unable to compute transit access"),
     ("water_availability", passthroughEntry water "Unable to compute water availability"),
     ("riverine_flood_risk", passthroughEntry flood "Unable to compute real‑time flood risk")]

/-- Function `compute_green_score` (`endpoints.py:109-262`).  `coords` is the (memoized)
geocoder's result for the ZIP; a `none` resolution short-circuits to the
`{"error": "Invalid ZIP code"}` dict.  Adapter futures are awaited in source
order; an adapter exception propagates (no handler).  On success the composite
dict carries the scores map and the geometric-mean overall score (`null` when
the scorer yields none). -/
noncomputable def compute_green_score (zip : String) (coords : Option (ℚ × ℚ))
    (o : AdapterOutcomes) : Except String JVal :=
  match coords with
  | none => .ok (JVal.dict [("error", .str "Invalid ZIP code")])
  | some (lat, lon) => do
      let a ← await o.air
      let l ← await o.land
      let t ← await o.traffic
      let x ← await o.toxic
      let g ← await o.green
      let d ← await o.dem
      let s ← await o.sea
      let tr ← await o.transit
      let w ← await o.water
      let f ← await o.flood
      let scores ← buildScores a l t x g d s tr w f
      pure (JVal.dict
        [("zip", .str zip),
         ("coordinates", .arr [.num lat, .num lon]),
         ("scores", .dict scores),
         ("overall_score",
           match _geometric_mean_over_scores scores with
           | some n => .num (n : ℚ)
           | none => .null)])

/-! ## `src/utils/kv.py` — the distributed (Redis) result cache -/

/-- Default `ZIP_CACHE_TTL_SECONDS`: 30 days (`kv.py:5`). -/
def ZIP_CACHE_TTL_SECONDS : ℕ := 30 * 24 * 3600

/-- Default key namespace (`kv.py:6`). -/
def ZIP_CACHE_PREFIX : String := "greenscore:"

/-- Function `_key` (`kv.py:10-11`). -/
def zipCacheKey (zip : String) : String := ZIP_CACHE_PREFIX ++ zip

/-! ## The `/green-score` endpoint (`endpoints.py:264-320`)

`cache_get_zip` / `cache_set_zip` issue Redis commands with **no** exception
handling anywhere on the request path (`kv.py:13-18`, `endpoints.py:284-318`),
so the store's behaviour on this request is an `Except`: `.ok` with the hit (or
miss) for the read, `.ok ()` or a raised connection error for the write.
The ETag is `sha256(json.dumps(...))`, an injective-in-practice hash of the
payload, modelled as an opaque function parameter `etagOf`. -/

/-- What the route handler produces: a 429 (`HTTPException` from the inline
rate limiter), a 304, a full JSON response with its `ETag` and `X-Cache`
header, or the raw error dict returned as-is (`endpoints.py:320`). -/
inductive GSResult where
  | tooMany : GSResult
  | notModified : String → GSResult
  | body : JVal → String → String → GSResult
  | rawDict : JVal → GSResult

/-- A `SETEX` issued to Redis: key, payload, TTL seconds. -/
structure CacheWrite where
  key : String
  payload : JVal
  ttl : ℕ

/-- Default `RATE_LIMIT_PER_MIN` (`endpoints.py:37`). -/
def RATE_LIMIT_PER_MIN : ℕ := 30

/-- One admission decision of the sliding-window rate limiter
(`endpoints.py:41-57` and the identical inline copy at `276-282`): prune
entries ≥ 60 s old, reject (leaving the stored list untouched — the exception
is raised before the write-back) if the window holds ≥ `limit` entries,
otherwise append the new timestamp.  Returns `(admitted?, new stored list)`. -/
def rate_limit_step (limit : ℕ) (calls : List ℚ) (now : ℚ) : Bool × List ℚ :=
  let kept := calls.filter (fun t => decide (now - t < 60))
  if limit ≤ kept.length then (false, calls)
  else (true, kept ++ [now])

/-- Fold a sequence of request timestamps (one client identity) through the
rate limiter, collecting the admission decisions and the final stored list. -/
def runRequests (limit : ℕ) : List ℚ → List ℚ → List Bool × List ℚ
  | log, [] => ([], log)
  | log, t :: ts =>
      let step := rate_limit_step limit log t
      let rest := runRequests limit step.2 ts
      (step.1 :: rest.1, rest.2)

/-- Python `if cached:` — truthiness of the optional cached payload. -/
def truthyOpt : Option JVal → Option JVal
  | some v => if v.truthy then some v else none
  | none => none

/-- Python `isinstance(result, dict) and not result.get("error")`
(`endpoints.py:307`). -/
def resultClean : JVal → Bool
  | .dict kvs => !(dictGet kvs "error" .null).truthy
  | _ => false

/-- The `green_score` route handler (`endpoints.py:264-320`) for one request:
inline rate limit (stored call list `reqLog`, clock `now`), then
`cache_get_zip` (`getOutcome`), then on miss `compute_green_score`, then —
when the composite is a dict with no truthy `error` — `cache_set_zip`
(`setOutcome`, followed by the `SETEX` record with the default 30-day TTL) and
a `MISS` response.  A hit returns 304 on a matching `If-None-Match` tag, else
the cached body with `HIT`.  Every raised exception (adapter, Redis read,
Redis write) propagates: there is no handler in the route. -/
noncomputable def green_score (reqLog : List ℚ) (now : ℚ)
    (getOutcome : Except String (Option JVal)) (setOutcome : Except String Unit)
    (etagOf : JVal → String) (inm : Option String)
    (zip : String) (coords : Option (ℚ × ℚ)) (o : AdapterOutcomes) :
    Except String (GSResult × List CacheWrite) := do
  let adm := rate_limit_step RATE_LIMIT_PER_MIN reqLog now
  if adm.1 = false then pure (.tooMany, [])
  else do
    let cached ← getOutcome
    match truthyOpt cached with
    | some c =>
        let etag := etagOf c
        if inm = some etag then pure (.notModified etag, [])
        else pure (.body c etag "HIT", [])
    | none => do
        let result ← compute_green_score zip coords o
        if resultClean result then do
          setOutcome
          pure (.body result (etagOf result) "MISS",
                [⟨zipCacheKey zip, result, ZIP_CACHE_TTL_SECONDS⟩])
        else pure (.rawDict result, [])

/-! ## `src/utils/overpass_throttle.py` — the hedged, paced, retrying client -/

/-- Mirror pool `DEFAULT_MIRRORS` (`overpass_throttle.py:5-9`). -/
def DEFAULT_MIRRORS : List String :=
  ["https://overpass.kumi.systems/api/interpreter",
   "https://overpass-api.nextzen.org/api/interpreter",
   "https://z.overpass-api.de/api/interpreter"]

/-- Default `OVERPASS_MIN_INTERVAL_S` (`overpass_throttle.py:11`). -/
def _MIN_INTERVAL_S : ℚ := 12/10

/-- Default `OVERPASS_MAX_RETRIES` (`overpass_throttle.py:12`). -/
def _MAX_RETRIES : ℕ := 4

/-- Default `OVERPASS_BACKOFF_START_S` (`overpass_throttle.py:13`). -/
def _BACKOFF_START : ℚ := 3/2

/-- Default `OVERPASS_HEDGE_MIRRORS` (`overpass_throttle.py:14`). -/
def _HEDGE_MIRRORS : ℕ := 2

/-- Mirror selection (`overpass_throttle.py:30-31`): a truthy `OVERPASS_URL`
environment value overrides the pool, falsy entries are dropped, and the first
`_HEDGE_MIRRORS` survivors are used. -/
def selectMirrors (envUrl : Option String) : List String :=
  ((match envUrl with
    | some u => if u ≠ "" then [u] else DEFAULT_MIRRORS
    | none => DEFAULT_MIRRORS).filter (fun m => decide (m ≠ ""))).take _HEDGE_MIRRORS

/-- One hedge round (`overpass_throttle.py:40-44`): iterate the futures in
completion order, return the first whose `.result()` does not raise, swallow
every exception.  `rs` is the round's mirror results in completion order. -/
def roundResult {ν : Type} (rs : List (Except String ν)) : Option ν :=
  rs.findSome? (fun r => r.toOption)

/-- The retry loop of `hedged_paced_query` (`overpass_throttle.py:34-46`),
with the per-round mirror results supplied by `outcomes` (indexed by attempt
number).  Returns the accepted response (if any), the list of back-off sleeps
performed (`time.sleep(backoff)` runs after every fully-failed round, the last
one included), and the number of rounds issued. -/
def hedgeRun {ν : Type} (outcomes : ℕ → List (Except String ν)) :
    ℕ → ℕ → ℚ → Option ν × List ℚ × ℕ
  | _, 0, _ => (none, [], 0)
  | attempt, fuel + 1, backoff =>
      match roundResult (outcomes attempt) with
      | some v => (some v, [], 1)
      | none =>
          let rest := hedgeRun outcomes (attempt + 1) fuel (min (backoff * (9/5)) 12)
          (rest.1, backoff :: rest.2.1, rest.2.2 + 1)

/-- Function `hedged_paced_query` (`overpass_throttle.py:29-48`): run `_MAX_RETRIES`
rounds starting from the `_BACKOFF_START` back-off; if every round fails,
raise `OverpassTooManyRequests("Overpass mirrors failed after retries")`. -/
def hedged_paced_query {ν : Type} (outcomes : ℕ → List (Except String ν)) :
    Except String ν × List ℚ × ℕ :=
  let r := hedgeRun outcomes 1 _MAX_RETRIES _BACKOFF_START
  (match r.1 with
   | some v => .ok v
   | none => .error "Overpass mirrors failed after retries",
   r.2.1, r.2.2)

/-- The deterministic back-off value before attempt `k + 2` (`k` sleeps have
already happened): `min(_BACKOFF_START · 1.8^k, 12.0)`
(`overpass_throttle.py:45-46`). -/
def cappedBackoff (k : ℕ) : ℚ := min (_BACKOFF_START * (9/5) ^ k) 12

/-! ### Real-time model of `_paced_call` (`overpass_throttle.py:19-27`)

`_paced_call` acquires the global `_lock`, sleeps out the pacing interval,
runs `fn()` — the actual mirror HTTP query — and releases the lock only after
`fn()` returns.  One such execution is four instants; well-formedness records
that the query runs strictly inside the lock-held span, exactly as the `with
_lock:` block does.  The mutual exclusion of `threading.Lock` means two
executions' lock-held spans cannot interleave. -/

/-- The four instants of one `_paced_call` execution. -/
structure PacedCallExec where
  lockAcq : ℚ
  fnStart : ℚ
  fnEnd : ℚ
  lockRel : ℚ

/-- The code shape of `_paced_call`: `fn()` runs inside the `with _lock:`
block. -/
def PacedCallExec.wf (e : PacedCallExec) : Prop :=
  e.lockAcq ≤ e.fnStart ∧ e.fnStart ≤ e.fnEnd ∧ e.fnEnd ≤ e.lockRel

/-- Mutual exclusion of `_lock`: two lock-held spans are disjoint. -/
def locksDisjoint (a b : PacedCallExec) : Prop :=
  a.lockRel ≤ b.lockAcq ∨ b.lockRel ≤ a.lockAcq

/-- Two query executions overlap in time: some instant lies strictly inside
both `fn()` spans. -/
def fnOverlap (a b : PacedCallExec) : Prop :=
  max a.fnStart b.fnStart < min a.fnEnd b.fnEnd

/-- The property claimed of one hedge round: two of its `_paced_call`
executions (distinct threads of the round's pool, hence lock-mutually-
exclusive) overlap in time. -/
def roundCallsCanOverlap : Prop :=
  ∃ a b : PacedCallExec, a.wf ∧ b.wf ∧ locksDisjoint a b ∧ fnOverlap a b

/-! ## Helper lemmas -/

theorem lookupMemo_setMemo_self {κ ν : Type} [DecidableEq κ]
    (st : List (κ × ν × ℚ)) (k : κ) (e : ν × ℚ) :
    lookupMemo (setMemo st k e) k = some e := by
  induction st with
  | nil => simp [setMemo, lookupMemo]
  | cons h rest ih =>
      obtain ⟨k₀, e₀⟩ := h
      by_cases hk : k₀ = k
      · simp [setMemo, lookupMemo, hk]
      · simp [setMemo, lookupMemo, hk, ih]

/-! ## Claim C8 — TTL memoizer lifecycle -/

/-- C8.  For every memo state with the key absent: a first call at time `t`
invokes the wrapped function and stores its value; a second identical call at
`t + ttl - ε` (`ε > 0`) returns the stored value without invoking the wrapped
function (and leaves the state unchanged); a call at `t + ttl + ε'` (`ε' > 0`)
invokes the wrapped function again and overwrites the entry. -/
theorem ttl_cache_lifecycle {κ ν : Type} [DecidableEq κ] (ttl : ℚ)
    (st : List (κ × ν × ℚ)) (k : κ) (t ε ε' : ℚ) (v₁ v₂ v₃ : ν)
    (hfresh : lookupMemo st k = none) (hε : 0 < ε) (hε' : 0 < ε') :
    ttl_call ttl st k t v₁ = (v₁, setMemo st k (v₁, t), true) ∧
    ttl_call ttl (setMemo st k (v₁, t)) k (t + ttl - ε) v₂
      = (v₁, setMemo st k (v₁, t), false) ∧
    ttl_call ttl (setMemo st k (v₁, t)) k (t + ttl + ε') v₃
      = (v₃, setMemo (setMemo st k (v₁, t)) k (v₃, t + ttl + ε'), true) := by
  refine ⟨?_, ?_, ?_⟩
  · simp [ttl_call, hfresh]
  · have hin : t + ttl - ε - t < ttl := by linarith
    simp only [ttl_call, lookupMemo_setMemo_self]
    rw [if_pos hin]
  · have hout : ¬ (t + ttl + ε' - t < ttl) := by intro h; linarith
    simp only [ttl_call, lookupMemo_setMemo_self]
    rw [if_neg hout]

/-- Witness for C8 at `κ = ν = ℕ`, `ttl = 10`, `t = 0`, `ε = ε' = 1`. -/
theorem ttl_cache_lifecycle_witness :
    ttl_call (κ := ℕ) (ν := ℕ) 10 [] 0 0 5 = (5, setMemo [] 0 (5, 0), true) ∧
    ttl_call 10 (setMemo [] 0 (5, 0)) 0 ((0 : ℚ) + 10 - 1) 6
      = (5, setMemo [] 0 (5, 0), false) ∧
    ttl_call 10 (setMemo [] 0 (5, 0)) 0 ((0 : ℚ) + 10 + 1) 7
      = (7, setMemo (setMemo [] 0 (5, 0)) 0 (7, (0 : ℚ) + 10 + 1), true) :=
  ttl_cache_lifecycle 10 [] 0 0 1 1 5 6 7 rfl (by norm_num) (by norm_num)

/-! ## Claim C9 — sliding-window admission control -/

theorem runRequests_all_granted (limit : ℕ) :
    ∀ (ts pre : List ℚ),
      (∀ a ∈ ts, ∀ b ∈ pre ++ ts, a - b < 60) →
      pre.length + ts.length ≤ limit →
      runRequests limit pre ts = (List.replicate ts.length true, pre ++ ts) := by
  intro ts
  induction ts with
  | nil => intro pre _ _; simp [runRequests]
  | cons t rest ih =>
      intro pre hwin hlen
      have hkeep : pre.filter (fun b => decide (t - b < 60)) = pre := by
        apply List.filter_eq_self.mpr
        intro b hb
        exact decide_eq_true (hwin t (by simp) b (by simp [hb]))
      have hlt : ¬ limit ≤ pre.length := by
        simp only [List.length_cons] at hlen; omega
      have hstep : rate_limit_step limit pre t = (true, pre ++ [t]) := by
        simp [rate_limit_step, hkeep, hlt]
      have hwin' : ∀ a ∈ rest, ∀ b ∈ (pre ++ [t]) ++ rest, a - b < 60 := by
        intro a ha b hb
        apply hwin a (by simp [ha]) b
        simp only [List.append_assoc, List.singleton_append] at hb
        exact hb
      have hlen' : (pre ++ [t]).length + rest.length ≤ limit := by
        simp only [List.length_append, List.length_cons, List.length_nil] at hlen ⊢
        omega
      calc runRequests limit pre (t :: rest)
          = (true :: (runRequests limit (pre ++ [t]) rest).1,
             (runRequests limit (pre ++ [t]) rest).2) := by
            simp [runRequests, hstep]
        _ = (List.replicate (t :: rest).length true, pre ++ t :: rest) := by
            rw [ih (pre ++ [t]) hwin' hlen']
            simp [List.replicate_succ]

/-- C9.  Starting from a fresh identity (empty window), `limit` requests whose
timestamps all lie within one 60-second span are all admitted; a further
request inside the same window is rejected (leaving the stored window
untouched); and once every stored timestamp is at least 60 seconds old, a new
request is admitted again. -/
theorem rate_limiter_sliding_window (limit : ℕ) (ts : List ℚ) (u u' : ℚ)
    (hpos : 0 < limit) (hlen : ts.length = limit)
    (hwin : ∀ a ∈ ts, ∀ b ∈ ts, a - b < 60)
    (hu : ∀ t ∈ ts, u - t < 60)
    (hu' : ∀ t ∈ ts, 60 ≤ u' - t) :
    (runRequests limit [] ts).1 = List.replicate limit true ∧
    (runRequests limit [] ts).2 = ts ∧
    (rate_limit_step limit ts u).1 = false ∧
    (rate_limit_step limit ts u').1 = true := by
  have hrun := runRequests_all_granted limit ts []
    (by intro a ha b hb; exact hwin a ha b (by simpa using hb))
    (by simp [hlen])
  refine ⟨by rw [hrun]; rw [hlen], by rw [hrun]; simp, ?_, ?_⟩
  · have hkeep : ts.filter (fun t => decide (u - t < 60)) = ts :=
      List.filter_eq_self.mpr (fun t ht => decide_eq_true (hu t ht))
    simp [rate_limit_step, hkeep, hlen]
  · have hdrop : ts.filter (fun t => decide (u' - t < 60)) = [] := by
      apply List.filter_eq_nil_iff.mpr
      intro t ht
      simp only [decide_eq_true_eq]
      intro h
      exact absurd (hu' t ht) (by linarith)
    simp [rate_limit_step, hdrop, Nat.not_le.mpr hpos]

/-- Witness for C9: `limit = 2`, requests at `0` and `1`, a rejected third at
`2`, and an admitted one at `61`. -/
theorem rate_limiter_sliding_window_witness :
    (runRequests 2 [] [0, 1]).1 = List.replicate 2 true ∧
    (runRequests 2 [] [0, 1]).2 = [0, 1] ∧
    (rate_limit_step 2 [0, 1] 2).1 = false ∧
    (rate_limit_step 2 [0, 1] 61).1 = true :=
  rate_limiter_sliding_window 2 [0, 1] 2 61 (by norm_num) rfl
    (by norm_num [List.forall_mem_cons]) (by norm_num [List.forall_mem_cons])
    (by norm_num [List.forall_mem_cons])

/-! ## Hedged-client lemmas (for C4, C6, C7) -/

/-- The successive sleep durations of the retry loop when every round fails,
starting from back-off `b`: `b` is slept, then the loop continues with
`min(b · 1.8, 12)` (`overpass_throttle.py:45-46`). -/
def backoffList (b : ℚ) : ℕ → List ℚ
  | 0 => []
  | n + 1 => b :: backoffList (min (b * (9/5)) 12) n

theorem hedgeRun_none_iff {ν : Type} (outcomes : ℕ → List (Except String ν)) :
    ∀ (fuel a : ℕ) (b : ℚ),
      ((hedgeRun outcomes a fuel b).1 = none ↔
        ∀ i, a ≤ i → i < a + fuel → roundResult (outcomes i) = none) := by
  intro fuel
  induction fuel with
  | zero =>
      intro a b
      simp only [hedgeRun]
      constructor
      · intro _ i h1 h2; omega
      · intro _; trivial
  | succ n ih =>
      intro a b
      simp only [hedgeRun]
      cases h : roundResult (outcomes a) with
      | some v =>
          simp only []
          constructor
          · intro hfalse; cases hfalse
          · intro hall
            have := hall a (le_refl a) (by omega)
            rw [h] at this; cases this
      | none =>
          simp only []
          rw [ih (a + 1) (min (b * (9/5)) 12)]
          constructor
          · intro hrec i h1 h2
            rcases Nat.eq_or_lt_of_le h1 with rfl | hlt
            · exact h
            · exact hrec i hlt (by omega)
          · intro hall i h1 h2
            exact hall i (by omega) (by omega)

theorem hedgeRun_all_fail {ν : Type} (outcomes : ℕ → List (Except String ν)) :
    ∀ (fuel a : ℕ) (b : ℚ),
      (∀ i, a ≤ i → i < a + fuel → roundResult (outcomes i) = none) →
      hedgeRun outcomes a fuel b = (none, backoffList b fuel, fuel) := by
  intro fuel
  induction fuel with
  | zero => intro a b _; simp [hedgeRun, backoffList]
  | succ n ih =>
      intro a b hall
      have ha : roundResult (outcomes a) = none := hall a (le_refl a) (by omega)
      have hrec := ih (a + 1) (min (b * (9/5)) 12)
        (fun i h1 h2 => hall i (by omega) (by omega))
      simp [hedgeRun, ha, hrec, backoffList]

theorem backoffList_start : backoffList _BACKOFF_START _MAX_RETRIES
    = [3/2, 27/10, 243/50, 2187/250] := by
  show backoffList (3/2) 4 = [3/2, 27/10, 243/50, 2187/250]
  have h1 : min ((3/2 : ℚ) * (9/5)) 12 = 27/10 := by norm_num
  have h2 : min ((27/10 : ℚ) * (9/5)) 12 = 243/50 := by norm_num
  have h3 : min ((243/50 : ℚ) * (9/5)) 12 = 2187/250 := by norm_num
  simp [backoffList, h1, h2, h3]

theorem backoffList_eq_capped : backoffList _BACKOFF_START _MAX_RETRIES
    = (List.range _MAX_RETRIES).map cappedBackoff := by
  rw [backoffList_start]
  show _ = [cappedBackoff 0, cappedBackoff 1, cappedBackoff 2, cappedBackoff 3]
  norm_num [cappedBackoff, _BACKOFF_START]

/-- Per-round mirror results that always fail: used to instantiate the
all-mirrors-failing scenario. -/
def allErrOutcomes : ℕ → List (Except String ℕ) :=
  fun _ => [Except.error "mirror down", Except.error "mirror down"]

theorem roundResult_allErr (i : ℕ) : roundResult (allErrOutcomes i) = none := rfl

theorem hedged_query_all_fail {ν : Type} (outcomes : ℕ → List (Except String ν))
    (hall : ∀ i, 1 ≤ i → i ≤ _MAX_RETRIES → roundResult (outcomes i) = none) :
    hedged_paced_query outcomes
      = (Except.error "Overpass mirrors failed after retries",
         backoffList _BACKOFF_START _MAX_RETRIES, _MAX_RETRIES) := by
  have h := hedgeRun_all_fail outcomes _MAX_RETRIES 1 _BACKOFF_START
    (fun i h1 h2 => hall i h1 (by omega))
  unfold hedged_paced_query
  rw [h]

/-! ## Claim C7 — retry exhaustion -/

/-- C7.  The hedged client raises the exhaustion error — whose message names
the Overpass upstream — exactly when every one of the `_MAX_RETRIES` rounds
fails; and in that case it has issued exactly `_MAX_RETRIES` rounds of mirror
calls (sleeping the back-off schedule in between). -/
theorem hedged_client_exhaustion {ν : Type}
    (outcomes : ℕ → List (Except String ν)) :
    ((hedged_paced_query outcomes).1
        = Except.error "Overpass mirrors failed after retries"
      ↔ ∀ i, 1 ≤ i → i ≤ _MAX_RETRIES → roundResult (outcomes i) = none) ∧
    ((∀ i, 1 ≤ i → i ≤ _MAX_RETRIES → roundResult (outcomes i) = none) →
      hedged_paced_query outcomes
        = (Except.error "Overpass mirrors failed after retries",
           backoffList _BACKOFF_START _MAX_RETRIES, _MAX_RETRIES)) := by
  have key : ∀ i, (1 ≤ i ∧ i < 1 + _MAX_RETRIES) ↔ (1 ≤ i ∧ i ≤ _MAX_RETRIES) := by
    intro i; constructor <;> (intro ⟨h1, h2⟩; exact ⟨h1, by omega⟩)
  constructor
  · unfold hedged_paced_query
    cases h : (hedgeRun outcomes 1 _MAX_RETRIES _BACKOFF_START).1 with
    | some v =>
        simp only [h]
        constructor
        · intro hfalse; cases hfalse
        · intro hall
          have := (hedgeRun_none_iff outcomes _MAX_RETRIES 1 _BACKOFF_START).mpr
            (fun i h1 h2 => hall i h1 (by omega))
          rw [h] at this; cases this
    | none =>
        simp only [h]
        constructor
        · intro _ i h1 h2
          exact (hedgeRun_none_iff outcomes _MAX_RETRIES 1 _BACKOFF_START).mp h
            i h1 (by omega)
        · intro _; trivial
  · exact hedged_query_all_fail outcomes

/-- Witness for C7: with two mirrors failing in every round, the client issues
exactly `_MAX_RETRIES = 4` rounds and raises the Overpass exhaustion error. -/
theorem hedged_client_exhaustion_witness :
    hedged_paced_query allErrOutcomes
      = (Except.error "Overpass mirrors failed after retries",
         backoffList _BACKOFF_START _MAX_RETRIES, _MAX_RETRIES) :=
  (hedged_client_exhaustion allErrOutcomes).2 (fun i _ _ => roundResult_allErr i)

/-! ## Claim C6 — back-off schedule -/

/-- C6 counterexample.  With every mirror failing in every round, the sleeps
performed are exactly the deterministic capped exponential schedule
`min(1.5 · 1.8^k, 12)` — `[1.5, 2.7, 4.86, 8.748]` — with no jitter term:
`overpass_throttle.py:45-46` sleeps `backoff` itself, and the module has no
source of randomness at all. -/
theorem backoff_no_jitter_counterexample :
    (hedged_paced_query allErrOutcomes).2.1
        = (List.range _MAX_RETRIES).map cappedBackoff ∧
    (List.range _MAX_RETRIES).map cappedBackoff = [3/2, 27/10, 243/50, 2187/250] := by
  have h := hedged_query_all_fail allErrOutcomes (fun i _ _ => roundResult_allErr i)
  constructor
  · rw [h]
    exact backoffList_eq_capped
  · rw [← backoffList_eq_capped, backoffList_start]

/-- C6 (amended).  When all mirrors in every round fail, the sleep before each
next attempt starts at the configured base `_BACKOFF_START = 1.5 s`, is
multiplied by the constant factor `1.8` after each retry and capped at `12.0 s`;
no jitter is added — the schedule is exactly `min(1.5 · 1.8^k, 12)`. -/
theorem backoff_schedule {ν : Type} (outcomes : ℕ → List (Except String ν))
    (hfail : ∀ i, 1 ≤ i → i ≤ _MAX_RETRIES → roundResult (outcomes i) = none) :
    (hedged_paced_query outcomes).2.1 = (List.range _MAX_RETRIES).map cappedBackoff := by
  have h := hedged_query_all_fail outcomes hfail
  rw [h, ← backoffList_eq_capped]

/-- Witness for C6 (amended), at the all-failing mirror outcomes. -/
theorem backoff_schedule_witness :
    (hedged_paced_query allErrOutcomes).2.1
      = (List.range _MAX_RETRIES).map cappedBackoff :=
  backoff_schedule allErrOutcomes (fun i _ _ => roundResult_allErr i)

/-! ## Claim C4 — hedge-race concurrency -/

theorem paced_calls_never_overlap : roundCallsCanOverlap = False := by
  apply eq_false
  rintro ⟨a, b, ⟨ha1, ha2, ha3⟩, ⟨hb1, hb2, hb3⟩, hd, hov⟩
  unfold fnOverlap at hov
  rcases hd with h | h
  · have h1 : min a.fnEnd b.fnEnd ≤ a.fnEnd := min_le_left _ _
    have h2 : b.fnStart ≤ max a.fnStart b.fnStart := le_max_right _ _
    linarith
  · have h1 : min a.fnEnd b.fnEnd ≤ b.fnEnd := min_le_right _ _
    have h2 : a.fnStart ≤ max a.fnStart b.fnStart := le_max_left _ _
    linarith

theorem roundResult_skips_errors {ν : Type} :
    ∀ (es : List String) (v : ν) (rest : List (Except String ν)),
      roundResult (List.map Except.error es ++ Except.ok v :: rest) = some v := by
  intro es
  induction es with
  | nil => intro v rest; rfl
  | cons e es ih => intro v rest; simpa [roundResult] using ih v rest

/-- C4 counterexample.  Because `_paced_call` runs the mirror query `fn()`
inside the `with _lock:` block (`overpass_throttle.py:21-27`) and `_lock` is a
single global mutex, no two mirror calls of a hedge round can overlap in time
— the claimed overlap is impossible in every execution. -/
theorem hedge_overlap_counterexample : roundCallsCanOverlap = False :=
  paced_calls_never_overlap

/-- C4 (amended).  Within one retry round the query is submitted to each of
the two selected mirrors as concurrently scheduled tasks, but each mirror call
executes while holding the global pacing lock, so the calls are serialized —
their execution intervals never overlap.  The first successful response (in
completion order) is still taken, and the remaining mirror results are
ignored. -/
theorem hedge_round_serialized_first_success (ν : Type) :
    (selectMirrors none).length = _HEDGE_MIRRORS ∧
    roundCallsCanOverlap = False ∧
    ∀ (es : List String) (v : ν) (rest : List (Except String ν)),
      roundResult (List.map Except.error es ++ Except.ok v :: rest) = some v :=
  ⟨rfl, paced_calls_never_overlap, roundResult_skips_errors⟩

/-! ## Concrete adapter outcomes used by counterexamples and witnesses -/

/-- Ten well-behaved adapters, each returning a plain score dict. -/
def demoOutcomes : AdapterOutcomes :=
  ⟨.val (.dict [("score", .num 50)]), .val (.dict [("score", .num 50)]),
   .val (.dict [("score", .num 50)]), .val (.dict [("score", .num 50)]),
   .val (.dict [("score", .num 50)]), .val (.dict [("score", .num 50)]),
   .val (.dict [("score", .num 50)]), .val (.dict [("score", .num 50)]),
   .val (.dict [("score", .num 50)]), .val (.dict [("score", .num 50)])⟩

/-- Ten adapters that all return an error dict (messages `m1` … `m10`, in the
submission order air, land, traffic, toxic, green, demographics, sea, transit,
water, flood). -/
def errOutcomes (m1 m2 m3 m4 m5 m6 m7 m8 m9 m10 : String) : AdapterOutcomes :=
  ⟨.val (.dict [("error", .str m1)]), .val (.dict [("error", .str m2)]),
   .val (.dict [("error", .str m3)]), .val (.dict [("error", .str m4)]),
   .val (.dict [("error", .str m5)]), .val (.dict [("error", .str m6)]),
   .val (.dict [("error", .str m7)]), .val (.dict [("error", .str m8)]),
   .val (.dict [("error", .str m9)]), .val (.dict [("error", .str m10)])⟩

/-! ## Claim C5 — resolution failure handling -/

/-- C5 counterexample.  A failed resolution (`None` from the geocoder) IS
stored by the in-process TTL memo wrapping `get_coordinates_from_zip`: after
one failing lookup of `"99999"` the memo holds the `none` entry, and a second
call one hour later returns the cached `none` without invoking the geocoder —
even though resolution would now succeed. -/
theorem geocode_failure_cached_counterexample :
    get_coordinates_from_zip [] "99999" 0 none
      = (none, [("99999", (none, 0))], true) ∧
    get_coordinates_from_zip [("99999", (none, 0))] "99999" 3600 (some (29, -95))
      = (none, [("99999", (none, 0))], false) := by
  constructor
  · rfl
  · simp only [get_coordinates_from_zip, ttl_call, lookupMemo, if_pos rfl]
    norm_num

/-- C5 (amended).  An unresolvable location key is terminal for the request:
the endpoint surfaces the `Invalid ZIP code` error dict directly and performs
no distributed-cache write.  However, the geocoder's in-process TTL memo does
store the `none` resolution result, and any identical call within the 86400 s
TTL is served that cached failure without the geocoder being re-invoked. -/
theorem geocode_failure_surfaced_and_memoized :
    (∀ (zip : String) (etagOf : JVal → String) (o : AdapterOutcomes),
      green_score [] 0 (.ok none) (.ok ()) etagOf none zip none o
        = .ok (.rawDict (.dict [("error", .str "Invalid ZIP code")]), [])) ∧
    (∀ (st : List (String × Option (ℚ × ℚ) × ℚ)) (zip : String) (now d : ℚ)
       (r : Option (ℚ × ℚ)),
      lookupMemo st zip = none → 0 ≤ d → d < 86400 →
      get_coordinates_from_zip st zip now none
        = (none, setMemo st zip (none, now), true) ∧
      get_coordinates_from_zip (setMemo st zip (none, now)) zip (now + d) r
        = (none, setMemo st zip (none, now), false)) := by
  constructor
  · intro zip etagOf o
    rfl
  · intro st zip now d r hfresh hd0 hd
    constructor
    · simp [get_coordinates_from_zip, ttl_call, hfresh]
    · have hin : now + d - now < 86400 := by linarith
      simp only [get_coordinates_from_zip, ttl_call, lookupMemo_setMemo_self]
      rw [if_pos hin]

/-- Witness for C5 (amended) at concrete inputs. -/
theorem geocode_failure_surfaced_and_memoized_witness :
    green_score [] 0 (.ok none) (.ok ()) (fun _ => "") none "99999" none demoOutcomes
      = .ok (.rawDict (.dict [("error", .str "Invalid ZIP code")]), []) ∧
    (get_coordinates_from_zip [] "00000" 0 none
        = (none, setMemo [] "00000" (none, 0), true) ∧
     get_coordinates_from_zip (setMemo [] "00000" (none, 0)) "00000" (0 + 3600)
          (some (29, -95))
        = (none, setMemo [] "00000" (none, 0), false)) :=
  ⟨geocode_failure_surfaced_and_memoized.1 "99999" (fun _ => "") demoOutcomes,
   geocode_failure_surfaced_and_memoized.2 [] "00000" 0 3600 (some (29, -95))
     rfl (by norm_num) (by norm_num)⟩

/-! ## Claim C1 — adapter failure isolation -/

/-- C1 counterexample.  Coordinates resolve, nine adapters return score dicts,
and the transit adapter raises `"boom"`: `compute_green_score` does not return
a composite at all — the exception propagates out of the fan-out
(`endpoints.py:146-156` awaits the futures with no handler) and the request is
aborted. -/
theorem orchestrator_abort_counterexample :
    compute_green_score "77001" (some (29, -95))
      ⟨.val (.dict [("score", .num 50)]), .val (.dict [("score", .num 50)]),
       .val (.dict [("score", .num 50)]), .val (.dict [("score", .num 50)]),
       .val (.dict [("score", .num 50)]), .val (.dict [("score", .num 50)]),
       .val (.dict [("score", .num 50)]), .exc "boom",
       .val (.dict [("score", .num 50)]), .val (.dict [("score", .num 50)])⟩
      = .error "boom" := rfl

/-- C1 (amended).  An adapter failure that is *returned* as an error value is
isolated: it becomes the `Err` entry of that metric alone and the composite
still carries every other adapter's outcome.  An adapter failure that is
*raised* as an exception is not caught by the orchestrator: it propagates and
aborts the request (the no-uncaught-throw obligation lives inside the
adapters). -/
theorem orchestrator_error_isolation (zip : String) (lat lon : ℚ)
    (sa s1 s2 s3 s4 s5 s6 : ℚ) (ml mt m me : String) :
    (∃ ov,
      compute_green_score zip (some (lat, lon))
        ⟨.val (.dict [("score", .num sa)]),
         .val (.dict [("error", .str ml)]),
         .val (.dict [("error", .str mt)]),
         .val (.dict [("score", .num s1)]),
         .val (.dict [("score", .num s2)]),
         .val (.dict [("score", .num s3)]),
         .val (.dict [("score", .num s4)]),
         .val (.dict [("error", .str m)]),
         .val (.dict [("score", .num s5)]),
         .val (.dict [("score", .num s6)])⟩
      = .ok (.dict
          [("zip", .str zip),
           ("coordinates", .arr [.num lat, .num lon]),
           ("scores", .dict
             [("air_quality", .dict
                [("score", .num sa), ("max_aqi", .null),
                 ("primary_pollutant", .null), ("observations", .null),
                 ("source", .str "AirNow")]),
              ("tree_canopy", .dict [("error", .str ml)]),
              ("pavement", .dict [("error", .str ml)]),
              ("traffic", .dict [("error", .str mt)]),
              ("toxic_sites", .dict [("score", .num s1)]),
              ("green_space", .dict [("score", .num s2)]),
              ("demographics", .dict [("score", .num s3)]),
              ("sea_level_rise", .dict [("score", .num s4)]),
              ("transit_access", .dict [("error", .str m)]),
              ("water_availability", .dict [("score", .num s5)]),
              ("riverine_flood_risk", .dict [("score", .num s6)])]),
           ("overall_score", ov)])) ∧
    compute_green_score zip (some (lat, lon))
        ⟨.val (.dict [("score", .num sa)]),
         .val (.dict [("error", .str ml)]),
         .val (.dict [("error", .str mt)]),
         .val (.dict [("score", .num s1)]),
         .val (.dict [("score", .num s2)]),
         .val (.dict [("score", .num s3)]),
         .val (.dict [("score", .num s4)]),
         .exc me,
         .val (.dict [("score", .num s5)]),
         .val (.dict [("score", .num s6)])⟩
      = .error me := by
  constructor
  · exact ⟨_, rfl⟩
  · rfl

/-! ## Claim C3 — cache-infrastructure failure handling -/

/-- C3 counterexample.  A raising `cache_get_zip` (Redis unreachable) does not
degrade to a cache miss: `green_score` has no handler (`endpoints.py:285`,
`kv.py:13-15`), so the read failure propagates and the user-facing request
aborts instead of recomputing. -/
theorem cache_read_failure_aborts_counterexample :
    green_score [] 0 (Except.error "ConnectionError: redis unreachable") (.ok ())
      (fun _ => "") none "77001" (some (29, -95)) demoOutcomes
      = .error "ConnectionError: redis unreachable" := rfl

/-- C3 (amended).  A distributed-cache failure fails the user-facing request:
a raising read aborts the request before any recomputation, and a raising
write-through aborts the request after the composite has been computed, so
the freshly computed composite is not returned to the caller either. -/
theorem cache_failure_fails_request (e eW : String) (etagOf : JVal → String)
    (inm : Option String) (zip zipW : String) (coords : Option (ℚ × ℚ))
    (o : AdapterOutcomes) (lat lon : ℚ)
    (m1 m2 m3 m4 m5 m6 m7 m8 m9 m10 : String) :
    green_score [] 0 (.error e) (.ok ()) etagOf inm zip coords o = .error e ∧
    green_score [] 0 (.ok none) (.error eW) etagOf none zipW (some (lat, lon))
        (errOutcomes m1 m2 m3 m4 m5 m6 m7 m8 m9 m10) = .error eW :=
  ⟨rfl, rfl⟩

/-! ## Claim C10 — the all-error composite is cached and served -/

/-- The scores map `compute_green_score` builds when all ten adapters return
error dicts with messages `m1` … `m10`. -/
def allErrScores (m1 m2 m3 m4 m5 m6 m7 m8 m9 m10 : String) :
    List (String × JVal) :=
  [("air_quality", .dict [("error", .str m1), ("source", .str "AirNow")]),
   ("tree_canopy", .dict [("error", .str m2)]),
   ("pavement", .dict [("error", .str m2)]),
   ("traffic", .dict [("error", .str m3)]),
   ("toxic_sites", .dict [("error", .str m4)]),
   ("green_space", .dict [("error", .str m5)]),
   ("demographics", .dict [("error", .str m6)]),
   ("sea_level_rise", .dict [("error", .str m7)]),
   ("transit_access", .dict [("error", .str m8)]),
   ("water_availability", .dict [("error", .str m9)]),
   ("riverine_flood_risk", .dict [("error", .str m10)])]

/-- The composite produced when the location resolves but every adapter
errors: all-`Err` metrics map, `overall_score` null, and no top-level `error`
key. -/
def allErrComposite (zip : String) (lat lon : ℚ)
    (m1 m2 m3 m4 m5 m6 m7 m8 m9 m10 : String) : JVal :=
  .dict [("zip", .str zip),
         ("coordinates", .arr [.num lat, .num lon]),
         ("scores", .dict (allErrScores m1 m2 m3 m4 m5 m6 m7 m8 m9 m10)),
         ("overall_score", .null)]

/-- C10.  When the location resolves but every adapter returns an error, the
composite has a null `overall_score` and no top-level `error` key, so the
endpoint's `not result.get("error")` guard passes: the all-error composite is
written through to the distributed cache under the namespaced key with the
full 30-day TTL and returned as a `MISS`; and once cached, it is served as an
`X-Cache: HIT` to subsequent requests for that key. -/
theorem all_error_composite_cached (zip : String) (lat lon : ℚ)
    (etagOf : JVal → String) (m1 m2 m3 m4 m5 m6 m7 m8 m9 m10 : String) :
    green_score [] 0 (.ok none) (.ok ()) etagOf none zip (some (lat, lon))
        (errOutcomes m1 m2 m3 m4 m5 m6 m7 m8 m9 m10)
      = .ok (.body (allErrComposite zip lat lon m1 m2 m3 m4 m5 m6 m7 m8 m9 m10)
               (etagOf (allErrComposite zip lat lon m1 m2 m3 m4 m5 m6 m7 m8 m9 m10))
               "MISS",
             [⟨zipCacheKey zip,
               allErrComposite zip lat lon m1 m2 m3 m4 m5 m6 m7 m8 m9 m10,
               ZIP_CACHE_TTL_SECONDS⟩]) ∧
    lookupKV [("zip", .str zip),
              ("coordinates", .arr [.num lat, .num lon]),
              ("scores", .dict (allErrScores m1 m2 m3 m4 m5 m6 m7 m8 m9 m10)),
              ("overall_score", .null)] "error" = none ∧
    _geometric_mean_over_scores (allErrScores m1 m2 m3 m4 m5 m6 m7 m8 m9 m10)
      = none ∧
    green_score [] 0
        (.ok (some (allErrComposite zip lat lon m1 m2 m3 m4 m5 m6 m7 m8 m9 m10)))
        (.ok ()) etagOf none zip (some (lat, lon))
        (errOutcomes m1 m2 m3 m4 m5 m6 m7 m8 m9 m10)
      = .ok (.body (allErrComposite zip lat lon m1 m2 m3 m4 m5 m6 m7 m8 m9 m10)
               (etagOf (allErrComposite zip lat lon m1 m2 m3 m4 m5 m6 m7 m8 m9 m10))
               "HIT", []) :=
  ⟨rfl, rfl, rfl, rfl⟩

/-! ## Claim C2 — the overall-score invariant -/

theorem pyRound_bounds (x : ℝ) (h0 : 0 ≤ x) (h100 : x ≤ 100) :
    0 ≤ pyRound x ∧ pyRound x ≤ 100 := by
  unfold pyRound
  by_cases hf : Int.fract x = 1 / 2
  · have hfloor0 : (0 : ℤ) ≤ ⌊x⌋ := Int.le_floor.mpr (by exact_mod_cast h0)
    have hxeq : x - (⌊x⌋ : ℝ) = 1 / 2 := by rw [Int.self_sub_floor, hf]
    have hup : ⌊x⌋ ≤ 99 := by
      have h2 : (⌊x⌋ : ℝ) < 100 := by linarith
      have h3 : ⌊x⌋ < 100 := by exact_mod_cast h2
      omega
    rw [if_pos hf]
    by_cases he : Even ⌊x⌋
    · rw [if_pos he]; exact ⟨hfloor0, by omega⟩
    · rw [if_neg he]; exact ⟨by omega, by omega⟩
  · rw [if_neg hf, round_eq]
    constructor
    · exact Int.le_floor.mpr (by push_cast; linarith)
    · have h1 : (⌊x + 1 / 2⌋ : ℝ) ≤ x + 1 / 2 := Int.floor_le _
      have h2 : (⌊x + 1 / 2⌋ : ℝ) < 101 := by linarith
      have h3 : ⌊x + 1 / 2⌋ < 101 := by exact_mod_cast h2
      omega

theorem scoreTriples_nil_iff (scores : List (String × JVal)) :
    scoreTriples scores = [] ↔
      ∀ kv ∈ scores, _extract_score kv.2 = none ∨ weightOf kv.1 ≤ 0 := by
  unfold scoreTriples
  rw [List.filterMap_eq_nil_iff]
  constructor
  · intro h kv hkv
    have hx := h kv hkv
    split at hx
    next s heq =>
      split at hx
      next hw => cases hx
      next hw => exact Or.inr (not_lt.mp hw)
    next heq => exact Or.inl heq
  · intro h kv hkv
    split
    next s heq =>
      rcases h kv hkv with he | hw
      · rw [heq] at he; cases he
      · rw [if_neg (not_lt.mpr hw)]
    next heq => rfl

theorem scoreTriples_w_pos (scores : List (String × JVal)) {t : String × ℚ × ℚ}
    (ht : t ∈ scoreTriples scores) : 0 < t.2.2 := by
  unfold scoreTriples at ht
  obtain ⟨kv, hkv, hf⟩ := List.mem_filterMap.mp ht
  split at hf
  next s heq =>
    split at hf
    next hw =>
      injection hf with hf
      rw [← hf]
      exact hw
    next hw => cases hf
  next heq => cases hf

/-- C2.  For every metrics map handed to the composite scorer:
`overall_score` is null exactly when no metric both yields a usable numeric
score and carries a positive configured weight (so numeric scores of
unweighted metrics such as `demographics` do not count); and whenever it is
not null it is an integer in `[0, 100]`. -/
theorem overall_score_invariant (scores : List (String × JVal)) :
    (_geometric_mean_over_scores scores = none ↔
      ∀ kv ∈ scores, _extract_score kv.2 = none ∨ weightOf kv.1 ≤ 0) ∧
    ∀ n, _geometric_mean_over_scores scores = some n → 0 ≤ n ∧ n ≤ 100 := by
  by_cases hts : scoreTriples scores = []
  · have hgm : _geometric_mean_over_scores scores = none := by
      simp [_geometric_mean_over_scores, hts]
    refine ⟨iff_of_true hgm ((scoreTriples_nil_iff scores).mp hts), ?_⟩
    intro n hn
    rw [hgm] at hn
    cases hn
  · obtain ⟨t0, ts0, htt⟩ : ∃ a l, scoreTriples scores = a :: l := by
      cases h : scoreTriples scores with
      | nil => exact absurd h hts
      | cons a l => exact ⟨a, l, rfl⟩
    have hsum : 0 < ((t0 :: ts0).map (fun t => t.2.2)).sum := by
      rw [← htt]
      refine List.sum_pos _ ?_ ?_
      · intro x hx
        obtain ⟨t, ht, rfl⟩ := List.mem_map.mp hx
        exact scoreTriples_w_pos scores ht
      · rw [htt]; simp
    refine ⟨iff_of_false ?_ ?_, ?_⟩
    · simp only [_geometric_mean_over_scores, htt, List.isEmpty_cons]
      rw [if_neg (by simp), if_neg (not_le.mpr hsum)]
      simp
    · exact fun hall => hts ((scoreTriples_nil_iff scores).mpr hall)
    · intro n hn
      simp only [_geometric_mean_over_scores, htt, List.isEmpty_cons] at hn
      rw [if_neg (by simp), if_neg (not_le.mpr hsum)] at hn
      injection hn with hn
      rw [← hn]
      exact pyRound_bounds _ (le_max_left _ _) (max_le (by norm_num) (min_le_left _ _))

theorem gm_single_100 :
    _geometric_mean_over_scores [("air_quality", JVal.dict [("score", JVal.num 100)])]
      = some 100 := by
  have htr : scoreTriples [("air_quality", JVal.dict [("score", JVal.num 100)])]
      = [("air_quality", (100 : ℚ), (12 / 10 : ℚ))] := by
    simp [scoreTriples, _extract_score, lookupKV, weightOf, METRIC_WEIGHTS]
  have hpr : pyRound (100 : ℝ) = 100 := by
    have hc : ((100 : ℤ) : ℝ) = (100 : ℝ) := by norm_num
    rw [← hc]
    unfold pyRound
    rw [Int.fract_intCast]
    norm_num [round_intCast]
  simp only [_geometric_mean_over_scores, htr, List.isEmpty_cons]
  rw [if_neg (by simp), if_neg (by norm_num)]
  have hacc : (((12 / 10 : ℚ) : ℝ) / (((([("air_quality", (100 : ℚ), (12 / 10 : ℚ))].map
        (fun t => t.2.2)).sum : ℚ) : ℝ)) * Real.log (((100 : ℚ) : ℝ) / 100)) = 0 := by
    have : Real.log (((100 : ℚ) : ℝ) / 100) = 0 := by
      norm_num
    rw [this, mul_zero]
  simp only [List.map_cons, List.map_nil, List.sum_cons, List.sum_nil]
  norm_num [hpr]

/-- Witness for C2: a single weighted metric scoring `100` yields
`overall_score = 100 ∈ [0, 100]`. -/
theorem overall_score_invariant_witness :
    _geometric_mean_over_scores [("air_quality", JVal.dict [("score", JVal.num 100)])]
        = some 100 ∧
    0 ≤ (100 : ℤ) ∧ (100 : ℤ) ≤ 100 :=
  ⟨gm_single_100,
   (overall_score_invariant [("air_quality", JVal.dict [("score", JVal.num 100)])]).2
     100 gm_single_100⟩

end EcoScore
